import Mathlib

/-!
Verification development for `avocado.utils.ssh` (file `avocado/utils/ssh.py`):
a shallow embedding of the `Session` class, its command-line construction
helpers, its connection lifecycle (`connect` / `quit` / `_check`), its
command execution (`cmd`) and its askpass-helper creation, together with
theorems settling the specification's claims about them.

Modelling conventions:
* Pure string building (`_dash_o_opts_to_str`, `_ssh_cmd`,
  `_master_connection`, `get_raw_ssh_command`) is embedded as Lean string
  functions, producing exactly the text the Python `%`-formatting produces.
* The external environment (liveness of the SSH control socket, the exit
  status of the spawned master process, the filesystem) is made explicit as
  a `World` record threaded through the stateful methods.  Subprocess
  outcomes are drawn from the `World`: whether the control socket is alive
  determines the exit status of `ssh -O check` / `ssh -O exit` control
  commands, and `World.masterExit` is the exit status the spawned master
  bootstrap process terminates with.
* `avocado.utils.process` is part of the repository but not among the
  provided sources; `process.run` is modelled from the spec (see
  `process_run` below).
* Machine-level details with no bearing on the claims (`shlex.split`,
  `preexec_fn=os.setsid`, the `DISPLAY`/`SSH_ASKPASS` environment variables
  passed to the spawned master) are noted in comments where they occur.
-/

namespace AvocadoSsh

/-- Python rendering of an optional string by `"%s" %`: `None` prints as
the literal text `None`. -/
def pyStr : Option String → String
  | none => "None"
  | some s => s

/-- Python truthiness of an optional string (`if self.key`): `None` and the
empty string are falsy, every other string is truthy. -/
def pyTruthyStr : Option String → Bool
  | none => false
  | some s => !s.isEmpty

/-- Result of a locally run command, as captured by the process runner
(`avocado.utils.process.CmdResult`): exit status plus captured output. -/
structure CmdResult where
  exit_status : Nat
  stdout : String
  stderr : String
deriving Repr, DecidableEq

/-- The command-failure error of the process runner
(`avocado.utils.process.CmdError`).  `Session.cmd` annotates a caught
error with `additional_text` and copies the captured output onto
`stdout`/`stderr`; before annotation those fields are unset (`none`). -/
structure CmdError where
  result : CmdResult
  additional_text : Option String
  stdout : Option String
  stderr : Option String
deriving Repr, DecidableEq

/-- The `Session` object: identity and credentials from `__init__`, plus
the one piece of mutable state, `_connection` (the handle of the master
process, modelled by its pid), which `__init__` sets to `None`. -/
structure Session where
  host : String
  port : Option Nat
  user : Option String
  key : Option String
  password : Option String
  _connection : Option Nat
deriving Repr, DecidableEq

/-- `Session.__init__(host, port, user, key, password)`:
stores the parameters and sets `self._connection = None`. -/
def Session.init (host : String) (port : Option Nat) (user : Option String)
    (key : Option String) (password : Option String) : Session :=
  { host := host, port := port, user := user, key := key,
    password := password, _connection := none }

/-- `Session.DEFAULT_OPTIONS`. -/
def DEFAULT_OPTIONS : List (String × String) :=
  [("StrictHostKeyChecking", "no"),
   ("UpdateHostKeys", "no"),
   ("ControlPath", "~/.ssh/avocado-master-%r@%h:%p")]

/-- `Session.MASTER_OPTIONS`. -/
def MASTER_OPTIONS : List (String × String) :=
  [("ControlMaster", "yes"),
   ("ControlPersist", "yes")]

/-- `Session._dash_o_opts_to_str`: renders option pairs as
`-o 'Key=Val'` joined by single spaces. -/
def dash_o_opts_to_str (opts : List (String × String)) : String :=
  String.intercalate " "
    (opts.map (fun o => "-o '" ++ o.1 ++ "=" ++ o.2 ++ "'"))

/-- `Session._ssh_cmd(dash_o_opts, opts, command)`.  The module global
`SSH_CLIENT_BINARY` is passed explicitly as `bin` (it is `None` when
`path.find_command('ssh')` failed at import time).  Note the source emits
`-i <key>` only inside the `self.user is not None` branch. -/
def Session._ssh_cmd (bin : Option String) (s : Session)
    (dash_o_opts : List (String × String)) (opts : List String)
    (command : String) : String :=
  let cmd := dash_o_opts_to_str dash_o_opts
  let cmd :=
    match s.user with
    | none => cmd
    | some u =>
      let cmd := cmd ++ " -l " ++ u
      match s.key with
      | none => cmd
      | some k => cmd ++ " -i " ++ k
  let cmd :=
    match s.port with
    | none => cmd
    | some p => cmd ++ " -p " ++ toString p
  pyStr bin ++ " " ++ cmd ++ " " ++ String.intercalate " " opts ++ " " ++
    s.host ++ " '" ++ command ++ "'"

/-- The `options` tuple assembled inside `Session._master_connection`:
defaults, master options, then `PubkeyAuthentication` set by the
truthiness of `self.key`, then the password block chosen by
`self.password is None`. -/
def Session._master_connection_options (s : Session) : List (String × String) :=
  DEFAULT_OPTIONS ++ MASTER_OPTIONS ++
    [("PubkeyAuthentication", if pyTruthyStr s.key then "yes" else "no")] ++
    (match s.password with
     | none => [("PasswordAuthentication", "no")]
     | some _ => [("PasswordAuthentication", "yes"),
                  ("NumberOfPasswordPrompts", "1")])

/-- `Session._master_connection()`: the master-mode command line. -/
def Session._master_connection (bin : Option String) (s : Session) : String :=
  s._ssh_cmd bin s._master_connection_options ["-n"] ""

/-- `Session.get_raw_ssh_command(command)`: quiet-mode invocation riding
the existing control socket. -/
def Session.get_raw_ssh_command (bin : Option String) (s : Session)
    (command : String) : String :=
  s._ssh_cmd bin DEFAULT_OPTIONS ["-q"] command

/-- Modelled from the spec: `avocado.utils.process.run` belongs to this
repository but is not among the provided sources.  Per the spec's Process
Runner interface, `run(command_line, ignore_status)` returns the captured
`{exit_status, stdout, stderr}` result, and "fails with a command-error
carrying the same fields when `ignore_status` is false and status is
non-zero".  The observed remote outcome is the oracle argument `result`;
the command-line text does not influence whether the runner raises. -/
def process_run (cmdline : String) (ignore_status : Bool)
    (result : CmdResult) : Except CmdError CmdResult :=
  let _ := cmdline
  if ignore_status = false ∧ result.exit_status ≠ 0 then
    .error { result := result, additional_text := none,
             stdout := none, stderr := none }
  else
    .ok result

/-- The two failure modes `Session.cmd` can raise: a `SessionError`
(carrying the session) or an annotated `process.CmdError`. -/
inductive CmdFailure where
  | sessionError (session : Session)
  | cmdError (exc : CmdError)
deriving Repr, DecidableEq

/-- `Session.cmd(command, ignore_status)`: runs the raw SSH command through
the process runner; on `process.CmdError`, re-raises `SessionError(self)`
when the exit status is 255, otherwise annotates the error
(`additional_text = "Command '<command>' failed"`, captured output copied
onto `stdout`/`stderr`) and re-raises it. -/
def Session.cmd (bin : Option String) (s : Session) (command : String)
    (ignore_status : Bool) (result : CmdResult) :
    Except CmdFailure CmdResult :=
  match process_run (s.get_raw_ssh_command bin command) ignore_status result with
  | .ok r => .ok r
  | .error exc =>
    if exc.result.exit_status = 255 then
      .error (.sessionError s)
    else
      .error (.cmdError { exc with
        additional_text := some ("Command '" ++ command ++ "' failed"),
        stderr := some exc.result.stderr,
        stdout := some exc.result.stdout })

/-- `stat.S_IRUSR` (octal 400). -/
def S_IRUSR : Nat := 256
/-- `stat.S_IXUSR` (octal 100). -/
def S_IXUSR : Nat := 64

/-- Filesystem operations performed by `Session._create_ssh_askpass`,
recorded as an event trace so their order can be reasoned about. -/
inductive FsOp where
  | mkstemp (path : String)
  | write (path : String) (content : String)
  | fchmod (path : String) (mode : Nat)
  | close (path : String)
deriving Repr, DecidableEq

/-- Stands for `sys.executable`, the path of the running Python
interpreter; an environment value with no bearing on any claim. -/
def sysExecutable : String := "/usr/bin/python3"

/-- The script text built by `Session._create_ssh_askpass`:
`"#!%s\nprint('%s')" % (sys.executable, self.password)`. -/
def askpassScript (s : Session) : String :=
  "#!" ++ sysExecutable ++ "\nprint('" ++ pyStr s.password ++ "')"

/-- `Session._create_ssh_askpass()`: `tempfile.mkstemp()` yields a fresh
descriptor and path (`tmpPath` here), then — in this order —
`os.write(fd, script)`, `os.fchmod(fd, stat.S_IRUSR | stat.S_IXUSR)`,
`os.close(fd)`; the path is returned.  The straight-line sequence of
system calls is returned as an event trace. -/
def Session._create_ssh_askpass (s : Session) (tmpPath : String) :
    String × List FsOp :=
  (tmpPath,
   [FsOp.mkstemp tmpPath,
    FsOp.write tmpPath (askpassScript s),
    FsOp.fchmod tmpPath (S_IRUSR ||| S_IXUSR),
    FsOp.close tmpPath])

/-- The external environment threaded through the stateful methods:
* `socketAlive` — whether the control socket for this session's endpoint
  currently accepts control commands;
* `masterExit` — the exit status the spawned master bootstrap process
  would terminate with (decided by the environment, not the code);
* `aliveAfterSpawn` — whether the socket is alive after a master
  bootstrap that exited 0 (the spec notes a non-crashing master process
  does not guarantee a live socket, hence the re-probe);
* `masterPid` — the pid of the spawned master process;
* `files` — the files currently on disk (tracking the askpass helper);
* `tmpPath` — the fresh path `tempfile.mkstemp` would hand out. -/
structure World where
  socketAlive : Bool
  masterExit : Nat
  aliveAfterSpawn : Bool
  masterPid : Nat
  files : List String
  tmpPath : String
deriving Repr, DecidableEq

/-- Exit status of an `ssh -O <cmd>` control command against this world's
socket: 0 when the socket is alive, 255 (SSH's transport-failure
sentinel) when it is not. -/
def controlExitStatus (w : World) : Nat :=
  if w.socketAlive then 0 else 255

/-- `Session._master_command(command)`: runs the `-O <command>` control
invocation through `process.run(..., ignore_status=True)` (which never
raises; modelled from the spec's Process Runner interface) and returns
`result.exit_status == 0`.  A successful `exit` control command tears the
master connection down, so the socket is no longer alive afterwards;
`check` observes the socket without changing it. -/
def Session._master_command (bin : Option String) (s : Session)
    (cmdName : String) (w : World) : Bool × World :=
  let cmd := s._ssh_cmd bin DEFAULT_OPTIONS ["-O", cmdName] ""
  let result :=
    match process_run cmd true ⟨controlExitStatus w, "", ""⟩ with
    | .ok r => r
    | .error e => e.result
  let w' := if cmdName = "exit" ∧ w.socketAlive then
              { w with socketAlive := false }
            else w
  (result.exit_status == 0, w')

/-- `Session._check()`: `self._master_command('check')`. -/
def Session._check (bin : Option String) (s : Session) (w : World) :
    Bool × World :=
  s._master_command bin "check" w

/-- Effect of a filesystem operation on the world's file list: `mkstemp`
creates the file; writing, chmodding and closing an already-created file
do not change which files exist. -/
def applyFsOp (w : World) : FsOp → World
  | .mkstemp p => { w with files := w.files ++ [p] }
  | .write _ _ => w
  | .fchmod _ _ => w
  | .close _ => w

/-- `os.unlink(path)`: removes the file from disk. -/
def unlinkFile (w : World) (p : String) : World :=
  { w with files := w.files.erase p }

/-- `master = subprocess.Popen(cmd, ...)` followed by `master.wait()`:
the bootstrap invocation's exit status comes from the environment; when
it is 0 the spawned process has become the background multiplexing
endpoint and the socket's subsequent liveness is `aliveAfterSpawn`.
(`shlex.split`, the `DEVNULL` redirections, `preexec_fn=os.setsid` and
the `DISPLAY`/`SSH_ASKPASS` environment variables of the password branch
affect neither the exit status nor any claim and are elided.) -/
def spawnMasterWait (w : World) : Nat × World :=
  if w.masterExit = 0 then
    (w.masterExit, { w with socketAlive := w.aliveAfterSpawn })
  else
    (w.masterExit, w)

/-- `Session.connect()`, lines 138–177 of the source:
1. `if SSH_CLIENT_BINARY is None: return False`;
2. `if not self._check()`: build the master command line, create the
   askpass helper when a password is set, spawn the master and wait,
   unlink the askpass helper when one was created, `return False` on a
   non-zero exit, otherwise store the process handle in
   `self._connection`;
3. `return self._check()` (re-probe in the spawn branch, second probe in
   the reuse branch).
Returns (result, session after mutation, world after side effects). -/
def Session.connect (bin : Option String) (s : Session) (w : World) :
    Bool × Session × World :=
  match bin with
  | none => (false, s, w)
  | some _ =>
    let (alive, w) := s._check bin w
    if alive then
      let (r, w') := s._check bin w
      (r, s, w')
    else
      let (askpassPath?, w₁) :=
        match s.password with
        | some _ =>
          let (p, ops) := s._create_ssh_askpass w.tmpPath
          (some p, ops.foldl applyFsOp w)
        | none => (none, w)
      let (rc, w₂) := spawnMasterWait w₁
      let w₃ :=
        match askpassPath? with
        | some p => unlinkFile w₂ p
        | none => w₂
      if rc ≠ 0 then
        (false, s, w₃)
      else
        let s' := { s with _connection := some w.masterPid }
        let (r, w₄) := s'._check bin w₃
        (r, s', w₄)

/-- `Session.quit()`: `return self._master_command('exit')`.  The method
assigns nothing to `self._connection`; the session is returned unchanged
to make that explicit. -/
def Session.quit (bin : Option String) (s : Session) (w : World) :
    Bool × Session × World :=
  let (r, w') := s._master_command bin "exit" w
  (r, s, w')

/-- Whether the first character list is a prefix of the second. -/
def isPrefList : List Char → List Char → Bool
  | [], _ => true
  | _ :: _, [] => false
  | p :: ps, c :: cs => p == c && isPrefList ps cs

/-- Whether `pat` occurs as a contiguous run inside the second list. -/
def hasSubList (pat : List Char) : List Char → Bool
  | [] => isPrefList pat []
  | c :: cs => isPrefList pat (c :: cs) || hasSubList pat cs

/-- Whether `pat` occurs as a contiguous substring of `hay`. -/
def strHasSub (hay pat : String) : Bool :=
  hasSubList pat.data hay.data

/-- Whether a filesystem event writes content. -/
def isWriteOp : FsOp → Bool
  | .write _ _ => true
  | _ => false

/-- The path a filesystem event operates on. -/
def opPath : FsOp → String
  | .mkstemp p => p
  | .write p _ => p
  | .fchmod p _ => p
  | .close p => p

/-- Formalisation of the claimed temporal property of askpass creation:
every write of content to the file is preceded by an application of the
restrictive permission mask (owner read+execute only) to that file. -/
def permsBeforeContent (ops : List FsOp) : Prop :=
  ∀ i : Fin ops.length, isWriteOp (ops.get i) = true →
    ∃ j : Fin ops.length, j.val < i.val ∧
      ops.get j = FsOp.fchmod (opPath (ops.get i)) (S_IRUSR ||| S_IXUSR)

instance (ops : List FsOp) : Decidable (permsBeforeContent ops) := by
  unfold permsBeforeContent
  infer_instance

/-- The ordering the code actually realises: every write of content to the
file is followed, before the file is closed, by an application of the
restrictive permission mask (owner read+execute only) to that file. -/
def maskAfterContentBeforeClose (ops : List FsOp) : Prop :=
  ∀ i : Fin ops.length, isWriteOp (ops.get i) = true →
    ∃ j : Fin ops.length, i.val < j.val ∧
      ops.get j = FsOp.fchmod (opPath (ops.get i)) (S_IRUSR ||| S_IXUSR) ∧
      ∀ k : Fin ops.length, ops.get k = FsOp.close (opPath (ops.get i)) →
        j.val < k.val

/-- Example session of the spec's key-authentication scenario:
`host="example.com", user="root", key="/tmp/id_rsa"`, no password. -/
def exampleSession : Session :=
  Session.init "example.com" none (some "root") (some "/tmp/id_rsa") none

/-- Example session configured with a password and no key. -/
def pwSession : Session :=
  Session.init "example.com" none (some "root") none (some "secret")

/-- A session that already holds a master-process handle. -/
def connectedSession : Session :=
  { host := "example.com", port := none, user := some "root",
    key := none, password := none, _connection := some 7 }

/-- A world whose control socket is not alive and in which a master
bootstrap would succeed; no files on disk yet. -/
def deadWorld : World :=
  { socketAlive := false, masterExit := 0, aliveAfterSpawn := true,
    masterPid := 42, files := [], tmpPath := "/tmp/askpass7" }

/-- A world whose control socket is already alive. -/
def liveWorld : World :=
  { deadWorld with socketAlive := true }

/-- A world whose control socket is dead and whose master bootstrap
invocation would fail with exit status 1. -/
def failWorld : World :=
  { deadWorld with masterExit := 1 }

/- ------------------------------------------------------------------ -/
/- Helper lemmas                                                       -/
/- ------------------------------------------------------------------ -/

theorem erase_append_self (l : List String) (p : String) (h : p ∉ l) :
    (l ++ [p]).erase p = l := by
  induction l with
  | nil => simp
  | cons a t ih =>
    have hpa : ¬ (a = p) := fun he => h (he ▸ List.mem_cons_self a t)
    have hat : p ∉ t := fun ht => h (List.mem_cons_of_mem a ht)
    simp [List.erase_cons, hpa, ih hat]

/- ------------------------------------------------------------------ -/
/- Claim theorems                                                      -/
/- ------------------------------------------------------------------ -/

/-- C1 (counterexample): the claim says a remote exit status of 255 raises
`SessionError` regardless of `ignore_status`.  It does not: with
`ignore_status=True`, `process.run` raises no `CmdError`, so
`Session.cmd` never reaches its 255 branch and returns the result with
exit status 255 as an ordinary result object — no `SessionError`. -/
theorem cmd_status255_ignored_cex :
    Session.cmd (some "ssh") (Session.init "example.com" none (some "root") none none)
        "uptime" true ⟨255, "", ""⟩ = Except.ok ⟨255, "", ""⟩ ∧
    Session.cmd (some "ssh") (Session.init "example.com" none (some "root") none none)
        "uptime" true ⟨255, "", ""⟩ ≠
      Except.error (CmdFailure.sessionError
        (Session.init "example.com" none (some "root") none none)) := by
  refine ⟨rfl, ?_⟩
  simp [Session.cmd, process_run]

/-- C1 (amended): when `ignore_status` is false, a remote exit status of
255 always raises `SessionError` carrying the session, never an ordinary
command error; when `ignore_status` is true, `cmd` raises nothing and
returns the result object with the observed exit status 255. -/
theorem cmd_status255_raises_session_error
    (bin : Option String) (s : Session) (command : String) (result : CmdResult)
    (h : result.exit_status = 255) :
    s.cmd bin command false result = Except.error (CmdFailure.sessionError s) ∧
    s.cmd bin command true result = Except.ok result := by
  constructor
  · simp [Session.cmd, process_run, h]
  · simp [Session.cmd, process_run]

/-- Witness for C1's amended theorem at a concrete transport failure. -/
theorem cmd_status255_raises_session_error_witness :
    Session.cmd (some "ssh") exampleSession "uptime" false ⟨255, "", ""⟩ =
      Except.error (CmdFailure.sessionError exampleSession) ∧
    Session.cmd (some "ssh") exampleSession "uptime" true ⟨255, "", ""⟩ =
      Except.ok ⟨255, "", ""⟩ :=
  cmd_status255_raises_session_error (some "ssh") exampleSession "uptime"
    ⟨255, "", ""⟩ rfl

/-- C2: for a remote exit status that is non-zero and not 255: with
`ignore_status=False`, `cmd` raises the command error carrying the
captured stdout/stderr of the remote command and the annotated message
`Command '<command>' failed`; with `ignore_status=True` it raises nothing
and returns the result object with the observed exit status. -/
theorem cmd_command_failure_classification
    (bin : Option String) (s : Session) (command : String) (result : CmdResult)
    (h0 : result.exit_status ≠ 0) (h255 : result.exit_status ≠ 255) :
    s.cmd bin command false result =
      Except.error (CmdFailure.cmdError
        { result := result,
          additional_text := some ("Command '" ++ command ++ "' failed"),
          stdout := some result.stdout,
          stderr := some result.stderr }) ∧
    s.cmd bin command true result = Except.ok result := by
  constructor
  · simp [Session.cmd, process_run, h0, h255]
  · simp [Session.cmd, process_run]

/-- Witness for C2 at a concrete failing command with exit status 1. -/
theorem cmd_command_failure_classification_witness :
    Session.cmd (some "ssh") exampleSession "ls /nope" false ⟨1, "", "No such file"⟩ =
      Except.error (CmdFailure.cmdError
        { result := ⟨1, "", "No such file"⟩,
          additional_text := some "Command 'ls /nope' failed",
          stdout := some "",
          stderr := some "No such file" }) ∧
    Session.cmd (some "ssh") exampleSession "ls /nope" true ⟨1, "", "No such file"⟩ =
      Except.ok ⟨1, "", "No such file"⟩ :=
  cmd_command_failure_classification (some "ssh") exampleSession "ls /nope"
    ⟨1, "", "No such file"⟩ (by decide) (by decide)

/-- C3: `connect()` probes the control socket first; when the probe
reports the socket already alive (e.g. a second `connect()` after a
successful first one), it returns `True` without spawning a new master
process — session and world are left completely unchanged (no subprocess,
no filesystem effect). -/
theorem connect_reuses_live_socket
    (b : String) (s : Session) (w : World) (h : w.socketAlive = true) :
    Session.connect (some b) s w = (true, s, w) := by
  simp [Session.connect, Session._check, Session._master_command,
        controlExitStatus, process_run, h]

/-- Witness for C3: a second `connect()` against an already-live socket. -/
theorem connect_reuses_live_socket_witness :
    Session.connect (some "ssh") exampleSession liveWorld =
      (true, exampleSession, liveWorld) :=
  connect_reuses_live_socket "ssh" exampleSession liveWorld rfl

/-- C4 (counterexample): the claim says `connection` transitions present →
absent on `quit()`.  It does not: `quit` only issues the `exit` control
command and assigns nothing to `self._connection`; after a successful
`quit` on a session holding a handle, the handle is still present. -/
theorem quit_keeps_connection_cex :
    (Session.quit (some "ssh") connectedSession liveWorld).1 = true ∧
    (Session.quit (some "ssh") connectedSession liveWorld).2.1._connection = some 7 := by
  constructor <;> rfl

/-- C4 (amended): `connection` is initially absent (`__init__` sets
`None`); a `connect()` call sets it to the spawned master's handle
exactly when the probe found the socket dead and the spawned master
exited 0 (even when the final re-probe then fails); on every other path
— the reuse path, a failed bootstrap, a missing client binary — and on
`quit()`, it is left unchanged. -/
theorem connection_state_transitions
    (b : String) (bin : Option String) (s : Session) (w : World)
    (host : String) (port : Option Nat) (user key password : Option String) :
    (Session.init host port user key password)._connection = none ∧
    (Session.connect (some b) s w).2.1._connection =
      (if w.socketAlive = false ∧ w.masterExit = 0 then some w.masterPid
       else s._connection) ∧
    (Session.connect none s w).2.1 = s ∧
    (Session.quit bin s w).2.1 = s := by
  refine ⟨rfl, ?_, rfl, rfl⟩
  cases hs : w.socketAlive with
  | true =>
    simp [Session.connect, Session._check, Session._master_command,
          controlExitStatus, process_run, hs]
  | false =>
    cases hp : s.password with
    | none =>
      by_cases hm : w.masterExit = 0 <;>
        simp [Session.connect, Session._check, Session._master_command,
              controlExitStatus, process_run, hs, hp, hm, spawnMasterWait,
              Session._create_ssh_askpass, applyFsOp, unlinkFile]
    | some pw =>
      by_cases hm : w.masterExit = 0 <;>
        simp [Session.connect, Session._check, Session._master_command,
              controlExitStatus, process_run, hs, hp, hm, spawnMasterWait,
              Session._create_ssh_askpass, applyFsOp, unlinkFile]

/-- C5: when the SSH client binary could not be located
(`SSH_CLIENT_BINARY is None`), `connect()` returns `False` immediately:
session and world are untouched — no subprocess is spawned, no file is
created.  (`connect` is a total function into `Bool`; ordinary connection
failures are reduced to the boolean return by construction.) -/
theorem connect_without_client_binary (s : Session) (w : World) :
    Session.connect none s w = (false, s, w) := rfl

/-- C6 (counterexample): the claim says the restrictive permission mask
(owner read+execute only) is applied before any content is written.  In
the source the order is the opposite: `os.write(fd, script)` (line 125)
precedes `os.fchmod(fd, stat.S_IRUSR | stat.S_IXUSR)` (line 126), so on
the concrete trace of `_create_ssh_askpass` no mask application precedes
the write of the plaintext-password script. -/
theorem askpass_mask_not_before_write_cex :
    ¬ permsBeforeContent (pwSession._create_ssh_askpass "/tmp/askpass7").2 := by
  decide

/-- C6 (amended): during askpass creation the script content (holding the
plaintext password) is written first, and the restrictive permission mask
(owner read+execute only) is applied after that write and before the
file descriptor is closed.  (The file is born via `tempfile.mkstemp`.) -/
theorem askpass_write_then_mask_then_close (s : Session) (tmp : String) :
    maskAfterContentBeforeClose (s._create_ssh_askpass tmp).2 := by
  intro i hi
  rcases i with ⟨iv, hlt⟩
  simp only [Session._create_ssh_askpass, List.length_cons, List.length_nil] at hlt
  interval_cases iv
  · exact absurd hi (by simp [Session._create_ssh_askpass, List.get, isWriteOp])
  · refine ⟨⟨2, by simp [Session._create_ssh_askpass]⟩, ?_, ?_, ?_⟩
    · simp
    · simp [Session._create_ssh_askpass, List.get, opPath]
    · intro k hk
      rcases k with ⟨kv, hklt⟩
      simp only [Session._create_ssh_askpass, List.length_cons,
                 List.length_nil] at hklt
      interval_cases kv <;>
        simp_all [Session._create_ssh_askpass, List.get, opPath]
  · exact absurd hi (by simp [Session._create_ssh_askpass, List.get, isWriteOp])
  · exact absurd hi (by simp [Session._create_ssh_askpass, List.get, isWriteOp])

/-- C7: a `connect()` on a session with a password configured that reaches
the master-spawn step (client binary present, probe found the socket
dead) deletes the synthesized askpass file before returning — whether the
master invocation succeeded (`masterExit = 0`) or failed.  Freshness of
the `mkstemp` path is the hypothesis `hfresh`. -/
theorem connect_removes_askpass_file
    (b : String) (s : Session) (w : World) (pw : String)
    (hpw : s.password = some pw) (hdead : w.socketAlive = false)
    (hfresh : w.tmpPath ∉ w.files) :
    w.tmpPath ∉ (Session.connect (some b) s w).2.2.files := by
  by_cases hm : w.masterExit = 0 <;>
    simp [Session.connect, Session._check, Session._master_command,
          controlExitStatus, process_run, hdead, hpw, hm, spawnMasterWait,
          Session._create_ssh_askpass, applyFsOp, unlinkFile,
          erase_append_self w.files w.tmpPath hfresh, hfresh]

/-- Witness for C7: a password session connecting through a dead socket
whose bootstrap succeeds; the askpass path is gone afterwards. -/
theorem connect_removes_askpass_file_witness :
    deadWorld.tmpPath ∉ (Session.connect (some "ssh") pwSession deadWorld).2.2.files :=
  connect_removes_askpass_file "ssh" pwSession deadWorld "secret" rfl rfl
    (by decide)

set_option maxRecDepth 16384 in
/-- C8: in the `options` tuple of `_master_connection`,
`PubkeyAuthentication` is `yes` exactly when a key was supplied (a key
option that is truthy in Python's sense, i.e. a non-empty string) and
`PasswordAuthentication` is `yes` exactly when a password was supplied,
in which case the prompt count is capped at 1
(`NumberOfPasswordPrompts=1`); and for `host="example.com"`,
`user="root"`, `key="/tmp/id_rsa"`, no password, the built command line
contains `-l root -i /tmp/id_rsa`, `PasswordAuthentication=no` and
`PubkeyAuthentication=yes`. -/
theorem master_connection_auth_options (s : Session) :
    ((("PubkeyAuthentication", "yes")) ∈ s._master_connection_options ↔
      pyTruthyStr s.key = true) ∧
    ((("PasswordAuthentication", "yes")) ∈ s._master_connection_options ↔
      s.password ≠ none) ∧
    ((("NumberOfPasswordPrompts", "1")) ∈ s._master_connection_options ↔
      s.password ≠ none) ∧
    strHasSub (Session._master_connection (some "ssh") exampleSession)
      "-l root -i /tmp/id_rsa" = true ∧
    strHasSub (Session._master_connection (some "ssh") exampleSession)
      "PasswordAuthentication=no" = true ∧
    strHasSub (Session._master_connection (some "ssh") exampleSession)
      "PubkeyAuthentication=yes" = true := by
  refine ⟨?_, ?_, ?_, by decide, by decide, by decide⟩ <;>
    cases hk : pyTruthyStr s.key <;> cases hp : s.password <;>
      simp [Session._master_connection_options, DEFAULT_OPTIONS,
            MASTER_OPTIONS, hk, hp]

/-- C9: `quit()` never raises (it is a total function into `Bool`): it
issues the `exit` control command through
`process.run(..., ignore_status=True)` and returns whether that command
exited 0, which in this model is exactly whether a control socket was
alive to receive it; with no connection the result is `False`, not an
error, and the session object is untouched. -/
theorem quit_returns_exit_result (bin : Option String) (s : Session) (w : World) :
    (Session.quit bin s w).1 = w.socketAlive ∧
    (Session.quit bin s w).2.1 = s := by
  refine ⟨?_, rfl⟩
  cases h : w.socketAlive <;>
    simp [Session.quit, Session._master_command, controlExitStatus,
          process_run, h]

/-- C10: when `user` is unset, the supplied `key` is silently dropped
from command construction: `-i <key>` is emitted only inside the
`self.user is not None` branch of `_ssh_cmd`, so every command line the
session constructs equals the one constructed with no key at all. -/
theorem ssh_cmd_drops_key_without_user
    (bin : Option String) (s : Session) (dash_o_opts : List (String × String))
    (opts : List String) (command : String) (h : s.user = none) :
    s._ssh_cmd bin dash_o_opts opts command =
      ({ s with key := none } : Session)._ssh_cmd bin dash_o_opts opts command := by
  simp [Session._ssh_cmd, h]

/-- Witness for C10: a session with a key but no user builds the same raw
command line as the same session with the key removed. -/
theorem ssh_cmd_drops_key_without_user_witness :
    (Session.init "example.com" none none (some "/tmp/id_rsa") none)._ssh_cmd
        (some "ssh") DEFAULT_OPTIONS ["-q"] "ls" =
      ({ Session.init "example.com" none none (some "/tmp/id_rsa") none with
          key := none } : Session)._ssh_cmd (some "ssh") DEFAULT_OPTIONS ["-q"] "ls" :=
  ssh_cmd_drops_key_without_user (some "ssh")
    (Session.init "example.com" none none (some "/tmp/id_rsa") none)
    DEFAULT_OPTIONS ["-q"] "ls" rfl

end AvocadoSsh
